import Mathlib

/-
  Verification of the request-gating core of slack_auth_proxy
  (src/oauthserver.go), shallowly embedded in Lean 4.

  The single source file defines the OAuthServer: special-path dispatch,
  upstream resolution through an HTTP mux, session-cookie validation, the
  OAuth callback, and cookie issuance.  External collaborators (the slack
  package, gorilla/securecookie, the network) are modelled as oracles whose
  per-request outcomes are inputs to the embedded handlers; the response
  writer is modelled as the list of effects the handler emits, in order.
-/

namespace SlackAuthProxy

/-! ## String primitives

The Go code uses the strings package.  These helpers mirror it with
structural recursion over the character list so that every embedded
function evaluates definitionally. -/

/-- Go strings.HasPrefix. -/
def hasPre (s p : String) : Bool := List.isPrefixOf p.toList s.toList

/-- Go strings.HasSuffix. -/
def hasSuf (s p : String) : Bool :=
  List.isPrefixOf p.toList.reverse s.toList.reverse

/-- Drop the first n characters of a string. -/
def strDrop (s : String) (n : Nat) : String := String.mk (s.toList.drop n)

/-- Go strings.Split with a one-character separator: the list of fields,
always at least one, like Go. -/
def splitChar (sep : Char) : List Char → List (List Char)
  | [] => [[]]
  | c :: cs =>
    match splitChar sep cs with
    | [] => [[]]
    | g :: gs => if c = sep then [] :: g :: gs else (c :: g) :: gs

/-! ## Constants (src/oauthserver.go lines 16-21) -/

def signInPath : String := "/oauth2/sign_in"

def oauthStartPath : String := "/oauth2/start"

def oauthCallbackPath : String := "/oauth2/callback"

def staticDir : String := "/_slackproxy"

/-! ## Data model -/

/-- Modelled from the spec: the identity record (slack.Auth, defined in the
slack package outside src/): subject, display name, team and raw token
obtained from the provider's identity endpoint.  The Go zero value has every
field empty, written here as the structure with all defaults. -/
structure Auth where
  userId : String := ""
  username : String := ""
  teamId : String := ""
  token : String := ""
deriving Repr, DecidableEq

/-- Modelled from the spec: UpstreamConfiguration (defined outside src/):
forwarding target split into base and mount path, plus the opaque
per-upstream access-policy data consulted by the AccessValidator. -/
structure UpstreamConfiguration where
  hostBase : String
  hostPath : String
  allowedUsers : List String := []
deriving Repr, DecidableEq

/-- Modelled from the spec: startup configuration (defined outside src/):
the upstream list, the two base64-encoded secret keys and the optional
cookie domain suffix. -/
structure Configuration where
  upstreams : List UpstreamConfiguration
  cookieHashKey : String
  cookieBlockKey : String
  cookieDomain : String
deriving Repr, DecidableEq

/-- An http.Cookie as built by SetCookie / ClearCookie; expires is an
absolute Unix timestamp in seconds. -/
structure Cookie where
  name : String
  value : String
  path : String
  domain : String
  expires : Int
  httpOnly : Bool
deriving Repr, DecidableEq

/-- The inbound request, restricted to the fields the gate reads: URL path,
RequestURI, Host, the session cookie's raw value when the header carries
one, and the outcome of req.ParseForm together with the form values the
handlers read. -/
structure Request where
  path : String
  requestURI : String
  host : String
  cookie : Option String := none
  parseFormErr : Option String := none
  formRd : String := ""
  formError : String := ""
  formState : String := ""
  formCode : String := ""
deriving Repr, DecidableEq

/-- One observable action on the response writer: Set-Cookie header, status
write, template render (template name, Title, and the Redirect or Message
datum), HTTP redirect, forwarding to the reverse proxy registered at a mux
pattern, http.NotFound, or delegation to the static file server. -/
inductive Effect where
  | setCookie (c : Cookie)
  | writeHeader (code : Nat)
  | render (tmpl : String) (title : String) (body : String)
  | redirect (url : String) (code : Nat)
  | forward (pattern : String)
  | notFound
  | serveStatic (path : String)
deriving Repr, DecidableEq

/-- Per-request outcomes of the external collaborators: secureCookie.Decode
on the presented cookie value (none on any decode error),
slackOauth.RedeemCode, the auth.test identity lookup, and
secureCookie.Encode of the obtained identity. -/
structure CollabOracles where
  decodeRes : Option Auth := none
  redeemRes : Except String String := Except.error "unreached"
  authTestRes : Except String Auth := Except.error "unreached"
  encodeRes : Except String String := Except.error "unreached"

/-! ## Base64 decoding (encoding/base64 StdEncoding.DecodeString) -/

/-- Value of one character of the standard base64 alphabet. -/
def b64Val (c : Char) : Option Nat :=
  if 'A' ≤ c ∧ c ≤ 'Z' then some (c.toNat - 65)
  else if 'a' ≤ c ∧ c ≤ 'z' then some (c.toNat - 97 + 26)
  else if '0' ≤ c ∧ c ≤ '9' then some (c.toNat - 48 + 52)
  else if c = '+' then some 62
  else if c = '/' then some 63
  else none

/-- Decode base64 four characters at a time; padding with = is accepted only
in the final quad, exactly as Go's StdEncoding requires.  A leftover group
shorter than four characters is corrupt input. -/
def decodeQuads : List Char → Option (List Nat)
  | [] => some []
  | c1 :: c2 :: c3 :: c4 :: rest => do
    let a ← b64Val c1
    let b ← b64Val c2
    if c3 = '=' then
      if c4 = '=' ∧ rest = [] then some [a * 4 + b / 16] else none
    else do
      let c ← b64Val c3
      if c4 = '=' then
        if rest = [] then some [a * 4 + b / 16, b % 16 * 16 + c / 4] else none
      else do
        let d ← b64Val c4
        let tail ← decodeQuads rest
        some ((a * 4 + b / 16) :: (b % 16 * 16 + c / 4) :: (c % 4 * 64 + d) :: tail)
  | _ => none

/-- Go's base64.StdEncoding.DecodeString: newline characters are skipped,
everything else must be alphabet characters with strict trailing padding. -/
def decodeBase64 (s : String) : Option (List Nat) :=
  decodeQuads (s.toList.filter fun c => c ≠ '\n' ∧ c ≠ '\r')

/-! ## Mux resolution (net/http ServeMux pattern matching) -/

/-- net/http pathMatch: a pattern ending in a slash matches every path it
prefixes; any other pattern matches only exactly. -/
def pathMatch (pattern p : String) : Bool :=
  if pattern = "" then false
  else if hasSuf pattern "/" then hasPre p pattern
  else pattern = p

/-- ServeMux.Handler: the longest registered pattern matching the path, or
the empty pattern (the NotFoundHandler) when none matches. -/
def muxMatch (patterns : List String) (p : String) : String :=
  patterns.foldl
    (fun best pat =>
      if pathMatch pat p ∧ best.length < pat.length then pat else best) ""

/-- strings.TrimPrefix(s, "/"): drop one leading slash when present. -/
def trimSlash (s : String) : String :=
  if hasPre s "/" then strDrop s 1 else s

/-- Indexing the upstream table (a Go map keyed by the pattern string). -/
def tableGet (table : List (String × UpstreamConfiguration)) (k : String) :
    Option UpstreamConfiguration :=
  match table with
  | [] => none
  | (k2, u) :: rest => if k2 = k then some u else tableGet rest k

/-- The two-step upstream lookup of ServeHTTP lines 113-119: the
mux-resolved pattern is looked up in the upstream table, and on a miss the
lookup is retried with the pattern's leading slash stripped. -/
def lookupUpstream (table : List (String × UpstreamConfiguration))
    (pattern : String) : Option UpstreamConfiguration :=
  match tableGet table pattern with
  | some u => some u
  | none => tableGet table (trimSlash pattern)

/-! ## The server and its constructor -/

structure OAuthServer where
  cookieKey : String
  validator : Auth → UpstreamConfiguration → Bool
  upstreamsConfig : List (String × UpstreamConfiguration)
  hashKey : List Nat
  blockKey : List Nat
  config : Configuration

/-- Modelled from the spec: NewValidator (defined outside src/).  Per the
spec the default policy, when no per-upstream restriction is configured, is
that any authenticated identity passes; a configured allowlist restricts by
membership. -/
def NewValidator : Auth → UpstreamConfiguration → Bool := fun a u =>
  if u.allowedUsers = [] then true
  else u.allowedUsers.any fun n => n = a.username

/-- NewOauthServer lines 41-58: each upstream is registered under its
HostURL path, with the empty path normalised to the root pattern. -/
def buildUpstreamTable (ups : List UpstreamConfiguration) :
    List (String × UpstreamConfiguration) :=
  ups.map fun u => (if u.hostPath = "" then "/" else u.hostPath, u)

/-- NewOauthServer lines 41-84.  log.Fatalf on a key that fails base64
decoding aborts the process before a server is built, modelled as none. -/
def NewOauthServer (config : Configuration)
    (validator : Auth → UpstreamConfiguration → Bool) : Option OAuthServer :=
  match decodeBase64 config.cookieHashKey with
  | none => none
  | some hk =>
    match decodeBase64 config.cookieBlockKey with
    | none => none
    | some bk =>
      some { cookieKey := "_slackauthproxy"
             validator := validator
             upstreamsConfig := buildUpstreamTable config.upstreams
             hashKey := hk
             blockKey := bk
             config := config }

/-! ## Cookie handling (lines 248-288) -/

/-- getCookieDomain lines 281-288: the request host split at the first
colon, replaced by the configured suffix when non-empty and matching. -/
def getCookieDomain (s : OAuthServer) (req : Request) : String :=
  let domain := String.mk ((splitChar ':' req.host.toList).headD [])
  if s.config.cookieDomain ≠ "" ∧ hasSuf domain s.config.cookieDomain then
    s.config.cookieDomain
  else domain

/-- SetCookie lines 248-260: session cookie with a 168-hour lifetime. -/
def SetCookie (s : OAuthServer) (now : Int) (req : Request) (val : String) :
    Cookie :=
  { name := s.cookieKey
    value := val
    path := "/"
    domain := getCookieDomain s req
    expires := now + 168 * 3600
    httpOnly := true }

/-- ClearCookie lines 262-272: empty value, expiry one hour in the past. -/
def ClearCookie (s : OAuthServer) (now : Int) (req : Request) : Cookie :=
  { name := s.cookieKey
    value := ""
    path := "/"
    domain := getCookieDomain s req
    expires := now - 3600
    httpOnly := true }

/-! ## Handlers (lines 146-246) -/

/-- ErrorPage lines 234-246: write the status, render the error template
with Title "code title" and the message. -/
def ErrorPage (code : Nat) (title message : String) : List Effect :=
  [Effect.writeHeader code,
   Effect.render "error" (toString code ++ " " ++ title) message]

/-- GetRedirect lines 146-160: the rd form value, with the empty string and
the sign-in path replaced by the root path; a ParseForm failure is an
error (the Go function then returns the empty redirect and the error). -/
def GetRedirect (req : Request) : Except String String :=
  match req.parseFormErr with
  | some e => Except.error e
  | none =>
    let redirect := req.formRd
    let redirect :=
      if redirect = "" ∨ redirect = signInPath then "/" else redirect
    Except.ok redirect

/-- handleSignIn lines 162-174: clear the cookie, then render the sign-in
template with the original RequestURI as the redirect target. -/
def handleSignIn (s : OAuthServer) (now : Int) (req : Request) :
    List Effect :=
  [Effect.setCookie (ClearCookie s now req),
   Effect.render "sign_in" "Sign in" req.requestURI]

/-- Modelled from the spec: slack.OAuthClient.LoginUrl (defined outside
src/) builds the provider's authorization URL embedding the redirect target
as the state parameter. -/
def loginUrl (redirect : String) : String :=
  "https://slack.com/oauth/authorize?state=" ++ redirect

/-- handleOAuthStart lines 176-184. -/
def handleOAuthStart (_s : OAuthServer) (req : Request) : List Effect :=
  match GetRedirect req with
  | Except.error e => ErrorPage 500 "Internal Error" e
  | Except.ok redirect => [Effect.redirect (loginUrl redirect) 302]

/-- handleOAuthCallback lines 186-232.  The encode-error branch at lines
218-221 renders the 500 page but does not return, so the function falls
through and still sets the cookie (whose value is the zero string returned
by the failed Encode) and issues the redirect; the embedding reproduces
that fall-through. -/
def handleOAuthCallback (s : OAuthServer) (now : Int) (req : Request)
    (c : CollabOracles) : List Effect :=
  match req.parseFormErr with
  | some e => ErrorPage 500 "Internal Error" e
  | none =>
    if req.formError ≠ "" then
      ErrorPage 403 "Permission Denied" req.formError
    else
      match c.redeemRes with
      | Except.error e => ErrorPage 500 "Internal Error" e
      | Except.ok _token =>
        match c.authTestRes with
        | Except.error e => ErrorPage 500 "Internal Error" e
        | Except.ok _auth =>
          let encodedAndErr :=
            match c.encodeRes with
            | Except.ok enc => (enc, ([] : List Effect))
            | Except.error _ =>
              ("", ErrorPage 500 "Internal Error" "Error encoding auth cookie")
          let redirect := if req.formState = "" then "/" else req.formState
          encodedAndErr.2 ++
            [Effect.setCookie (SetCookie s now req encodedAndErr.1),
             Effect.redirect redirect 302]

/-- ServeHTTP lines 86-144.  Special paths dispatch first; otherwise the
upstream is resolved and, when present, the request is forwarded exactly
when a cookie header is present and the validator accepts the Auth left by
secureCookie.Decode.  Decode's error return is discarded by the source, so
on a decode failure the destination Auth keeps its zero value and that zero
value is what reaches the validator. -/
def ServeHTTP (s : OAuthServer) (now : Int) (req : Request)
    (c : CollabOracles) : List Effect :=
  if req.path = signInPath then
    handleSignIn s now req
  else if req.path = oauthStartPath then
    handleOAuthStart s req
  else if req.path = oauthCallbackPath then
    handleOAuthCallback s now req c
  else if hasPre req.path staticDir then
    [Effect.serveStatic (strDrop req.path staticDir.length)]
  else
    let pattern := muxMatch (s.upstreamsConfig.map Prod.fst) req.path
    match lookupUpstream s.upstreamsConfig pattern with
    | none => [Effect.notFound]
    | some up =>
      let ok :=
        match req.cookie with
        | none => false
        | some _ => s.validator (c.decodeRes.getD {}) up
      if ok then [Effect.forward pattern] else handleSignIn s now req

/-! ## Spec-side formalisations used to compare against the code -/

/-- Formalisation of the spec's phrase "a same-origin path, never an
absolute external URL": the target is a path, i.e. begins with a slash (an
absolute URL such as https://evil.example/ does not). -/
def isSameOriginPath (r : String) : Bool := hasPre r "/"

/-- Formalisation of the claim's phrase "the request host with any port
stripped": remove one trailing colon-digits port when present, leaving the
host itself (including a bracketed IPv6 host) intact. -/
def specStripPort (h : String) : String :=
  let cs := h.toList
  let rev := cs.reverse
  let digits := rev.takeWhile fun ch => ch.isDigit
  if digits ≠ [] ∧ (rev.drop digits.length).head? = some ':' then
    String.mk (cs.take (cs.length - digits.length - 1))
  else h

/-! ## Concrete fixtures for witnesses and counterexamples -/

def upRoot : UpstreamConfiguration :=
  { hostBase := "http://127.0.0.1:4180", hostPath := "" }

def upApp : UpstreamConfiguration :=
  { hostBase := "http://127.0.0.1:9000", hostPath := "/app/" }

def cfgTest : Configuration :=
  { upstreams := [upRoot]
    cookieHashKey := "QUJDRA=="
    cookieBlockKey := "QUJDRA=="
    cookieDomain := "" }

def cfgBadKey : Configuration :=
  { upstreams := []
    cookieHashKey := "%%"
    cookieBlockKey := "QUJDRA=="
    cookieDomain := "" }

def srvTest : OAuthServer :=
  { cookieKey := "_slackauthproxy"
    validator := NewValidator
    upstreamsConfig := [("/", upRoot)]
    hashKey := [65, 66, 67, 68]
    blockKey := [65, 66, 67, 68]
    config := cfgTest }

def srvReject : OAuthServer := { srvTest with validator := fun _ _ => false }

def srvApp : OAuthServer := { srvTest with upstreamsConfig := [("/app/", upApp)] }

def sampleAuth : Auth :=
  { userId := "U1", username := "alice", teamId := "T1", token := "xoxp-1" }

def reqFoo : Request :=
  { path := "/foo", requestURI := "/foo", host := "proxy.example.com" }

def reqFooCorrupt : Request := { reqFoo with cookie := some "corrupt" }

def reqFooValid : Request := { reqFoo with cookie := some "validcookie" }

def reqNomatch : Request :=
  { path := "/nomatch", requestURI := "/nomatch", host := "proxy.example.com"
    cookie := some "whatever" }

def reqSignIn : Request :=
  { path := signInPath, requestURI := "/oauth2/sign_in?rd=/x"
    host := "proxy.example.com" }

def reqV6 : Request :=
  { path := "/foo", requestURI := "/foo", host := "[::1]:8080" }

def reqCb (st : String) : Request :=
  { path := oauthCallbackPath, requestURI := oauthCallbackPath
    host := "proxy.example.com", formState := st }

def reqCbDenied : Request := { reqCb "" with formError := "access_denied" }

def reqStartEvil : Request :=
  { path := oauthStartPath, requestURI := oauthStartPath
    host := "proxy.example.com", formRd := "https://evil.example/" }

def reqStartSignInRd : Request :=
  { path := oauthStartPath, requestURI := oauthStartPath
    host := "proxy.example.com", formRd := signInPath }

def okOracles : CollabOracles :=
  { decodeRes := none
    redeemRes := Except.ok "tok"
    authTestRes := Except.ok sampleAuth
    encodeRes := Except.ok "enc" }

def encFailOracles : CollabOracles :=
  { okOracles with encodeRes := Except.error "boom" }

/-! ## Claim theorems -/

/-- C1: the claim requires a request whose session cookie fails
authenticated decode to be treated identically to a request with no cookie
— never forwarded, and no partially-populated identity reaching the
AccessValidator.  The source discards secureCookie.Decode's error, so the
zero-valued Auth reaches the validator, and under the default allow-all
policy the request carrying an undecodable cookie is forwarded to the
upstream while the identical request without a cookie is answered with the
sign-in page. -/
theorem C1_decode_failure_forwarded :
    ServeHTTP srvTest 0 reqFooCorrupt { decodeRes := none } =
      [Effect.forward "/"] ∧
    ServeHTTP srvTest 0 reqFoo { decodeRes := none } =
      [Effect.setCookie (ClearCookie srvTest 0 reqFoo),
       Effect.render "sign_in" "Sign in" "/foo"] :=
  ⟨rfl, rfl⟩

/-- C3: the claim requires that, when encoding the identity into the
session cookie fails, only the 500 error page is emitted — no Set-Cookie
and no redirect.  The encode-error branch of handleOAuthCallback lacks a
return, so the source renders the 500 page and then still sets the session
cookie (with the empty value the failed Encode returned) and issues the
302 redirect. -/
theorem C3_encode_failure_still_sets_cookie :
    ServeHTTP srvTest 0 (reqCb "") encFailOracles =
      [Effect.writeHeader 500,
       Effect.render "error" "500 Internal Error" "Error encoding auth cookie",
       Effect.setCookie
         { name := "_slackauthproxy", value := "", path := "/"
           domain := "proxy.example.com", expires := 604800, httpOnly := true },
       Effect.redirect "/" 302] :=
  rfl

/-- C10: if either configured secret fails base64 decoding, NewOauthServer
is fatal and no server value is produced. -/
theorem C10_bad_key_fatal (cfg : Configuration)
    (v : Auth → UpstreamConfiguration → Bool)
    (h : decodeBase64 cfg.cookieHashKey = none ∨
         decodeBase64 cfg.cookieBlockKey = none) :
    NewOauthServer cfg v = none := by
  unfold NewOauthServer
  rcases h with h | h
  · rw [h]
  · cases hd : decodeBase64 cfg.cookieHashKey with
    | none => rfl
    | some hk => rw [h]

/-- C10 witness: a hash key that is not base64 makes construction fail. -/
theorem C10_bad_key_fatal_witness :
    decodeBase64 "%%" = none ∧ NewOauthServer cfgBadKey NewValidator = none :=
  ⟨rfl, C10_bad_key_fatal cfgBadKey NewValidator (Or.inl rfl)⟩

/-- C2 counterexample: the claim says the post-auth redirect target is
always a same-origin path regardless of the rd or state parameter.  With
rd set to an absolute external URL, GetRedirect returns it verbatim, and a
callback whose state is that URL redirects straight to it. -/
theorem C2_redirect_external_counterexample :
    GetRedirect reqStartEvil = Except.ok "https://evil.example/" ∧
    isSameOriginPath "https://evil.example/" = false ∧
    Effect.redirect "https://evil.example/" 302 ∈
      handleOAuthCallback srvTest 0 (reqCb "https://evil.example/") okOracles := by
  refine ⟨rfl, rfl, ?_⟩
  decide

/-- C2 amended: the redirect target is the caller-supplied value taken
verbatim — GetRedirect returns the rd form parameter unchanged whenever it
is non-empty and differs from the sign-in path, and the callback redirects
to the state parameter unchanged whenever it is non-empty — with no
same-origin restriction, so an absolute external URL is used as-is. -/
theorem C2_redirect_verbatim :
    (∀ req : Request, req.parseFormErr = none → req.formRd ≠ "" →
      req.formRd ≠ signInPath → GetRedirect req = Except.ok req.formRd) ∧
    (∀ (s : OAuthServer) (now : Int) (req : Request) (c : CollabOracles)
       (t e : String) (a : Auth),
      req.parseFormErr = none → req.formError = "" →
      c.redeemRes = Except.ok t → c.authTestRes = Except.ok a →
      c.encodeRes = Except.ok e → req.formState ≠ "" →
      Effect.redirect req.formState 302 ∈ handleOAuthCallback s now req c) := by
  constructor
  · intro req h h1 h2
    simp [GetRedirect, h, h1, h2]
  · intro s now req c t e a h1 h2 h3 h4 h5 h6
    simp [handleOAuthCallback, h1, h2, h3, h4, h5, h6]

/-- C2 amended witness at an external URL supplied by the caller. -/
theorem C2_redirect_verbatim_witness :
    GetRedirect reqStartEvil = Except.ok "https://evil.example/" ∧
    Effect.redirect "https://evil.example/" 302 ∈
      handleOAuthCallback srvTest 0 (reqCb "https://evil.example/") okOracles :=
  ⟨C2_redirect_verbatim.1 reqStartEvil rfl (by decide) (by decide),
   C2_redirect_verbatim.2 srvTest 0 (reqCb "https://evil.example/") okOracles
     "tok" "enc" sampleAuth rfl rfl rfl rfl rfl (by decide)⟩

/-- C4 counterexample: the claim says a state equal to the sign-in path
resolves to the root path in the OAuth callback too, but the callback only
replaces the empty state: with state = /oauth2/sign_in the issued redirect
goes back to the sign-in path, not to the root. -/
theorem C4_callback_signin_state_counterexample :
    Effect.redirect signInPath 302 ∈
      handleOAuthCallback srvTest 0 (reqCb signInPath) okOracles ∧
    Effect.redirect "/" 302 ∉
      handleOAuthCallback srvTest 0 (reqCb signInPath) okOracles := by
  decide

/-- C4 amended: GetRedirect (start/sign-in flow) resolves an absent rd or
an rd equal to the sign-in path to the root path, while the OAuth callback
resolves only an absent (empty) state to the root path and redirects to a
state equal to the sign-in path unchanged. -/
theorem C4_redirect_defaulting :
    (∀ req : Request, req.parseFormErr = none →
      GetRedirect req =
        Except.ok
          (if req.formRd = "" ∨ req.formRd = signInPath then "/"
           else req.formRd)) ∧
    (∀ (s : OAuthServer) (now : Int) (req : Request) (c : CollabOracles)
       (t e : String) (a : Auth),
      req.parseFormErr = none → req.formError = "" →
      c.redeemRes = Except.ok t → c.authTestRes = Except.ok a →
      c.encodeRes = Except.ok e →
      Effect.redirect (if req.formState = "" then "/" else req.formState) 302 ∈
        handleOAuthCallback s now req c) := by
  constructor
  · intro req h
    simp [GetRedirect, h]
  · intro s now req c t e a h1 h2 h3 h4 h5
    simp [handleOAuthCallback, h1, h2, h3, h4, h5]

/-- C4 amended witness: an rd equal to the sign-in path is resolved to the
root by GetRedirect, while a state equal to the sign-in path is redirected
to unchanged by the callback. -/
theorem C4_redirect_defaulting_witness :
    GetRedirect reqStartSignInRd = Except.ok "/" ∧
    Effect.redirect signInPath 302 ∈
      handleOAuthCallback srvTest 0 (reqCb signInPath) okOracles := by
  constructor
  · exact C4_redirect_defaulting.1 reqStartSignInRd rfl
  · exact C4_redirect_defaulting.2 srvTest 0 (reqCb signInPath) okOracles
      "tok" "enc" sampleAuth rfl rfl rfl rfl rfl

/-- C5: a gated request whose cookie decodes to an identity the upstream's
AccessValidator rejects is answered with the sign-in response (cookie
cleared, sign-in template rendered) and is never forwarded to the
upstream's reverse proxy. -/
theorem C5_rejected_identity_not_forwarded (s : OAuthServer) (now : Int)
    (req : Request) (c : CollabOracles) (up : UpstreamConfiguration)
    (a : Auth) (v : String)
    (h1 : req.path ≠ signInPath) (h2 : req.path ≠ oauthStartPath)
    (h3 : req.path ≠ oauthCallbackPath)
    (h4 : hasPre req.path staticDir = false)
    (h5 : lookupUpstream s.upstreamsConfig
            (muxMatch (s.upstreamsConfig.map Prod.fst) req.path) = some up)
    (h6 : req.cookie = some v) (h7 : c.decodeRes = some a)
    (h8 : s.validator a up = false) :
    ServeHTTP s now req c =
      [Effect.setCookie (ClearCookie s now req),
       Effect.render "sign_in" "Sign in" req.requestURI] ∧
    ∀ p, Effect.forward p ∉ ServeHTTP s now req c := by
  have hmain : ServeHTTP s now req c =
      [Effect.setCookie (ClearCookie s now req),
       Effect.render "sign_in" "Sign in" req.requestURI] := by
    simp [ServeHTTP, handleSignIn, h1, h2, h3, h4, h5, h6, h7, h8]
  refine ⟨hmain, ?_⟩
  intro p hp
  rw [hmain] at hp
  simp at hp

/-- C5 witness: a valid cookie with a rejecting validator renders sign-in. -/
theorem C5_rejected_identity_not_forwarded_witness :
    ServeHTTP srvReject 0 reqFooValid { decodeRes := some sampleAuth } =
      [Effect.setCookie (ClearCookie srvReject 0 reqFooValid),
       Effect.render "sign_in" "Sign in" "/foo"] ∧
    ∀ p, Effect.forward p ∉
      ServeHTTP srvReject 0 reqFooValid { decodeRes := some sampleAuth } :=
  C5_rejected_identity_not_forwarded srvReject 0 reqFooValid
    { decodeRes := some sampleAuth } upRoot sampleAuth "validcookie"
    (by decide) (by decide) (by decide) (by decide) (by decide) rfl rfl rfl

/-- C6: a callback request whose query carries a non-empty error parameter
is answered with the 403 Permission Denied page surfacing the provider's
error string, independently of every provider oracle (no code exchange is
consulted), and no cookie is set. -/
theorem C6_provider_error_denied (s : OAuthServer) (now : Int)
    (req : Request) (c : CollabOracles) (h1 : req.path = oauthCallbackPath)
    (h2 : req.parseFormErr = none) (h3 : req.formError ≠ "") :
    ServeHTTP s now req c = ErrorPage 403 "Permission Denied" req.formError ∧
    ∀ ck, Effect.setCookie ck ∉ ServeHTTP s now req c := by
  have hmain : ServeHTTP s now req c =
      ErrorPage 403 "Permission Denied" req.formError := by
    rw [ServeHTTP.eq_def, h1]
    rw [if_neg (by decide), if_neg (by decide), if_pos rfl]
    simp [handleOAuthCallback, h2, h3]
  refine ⟨hmain, ?_⟩
  intro ck hc
  rw [hmain] at hc
  simp [ErrorPage] at hc

/-- C6 witness at a concrete denied callback. -/
theorem C6_provider_error_denied_witness :
    ServeHTTP srvTest 0 reqCbDenied okOracles =
      ErrorPage 403 "Permission Denied" "access_denied" ∧
    ∀ ck, Effect.setCookie ck ∉ ServeHTTP srvTest 0 reqCbDenied okOracles :=
  C6_provider_error_denied srvTest 0 reqCbDenied okOracles rfl rfl (by decide)

/-- C7: for a non-special path, when the mux-resolved pattern misses the
upstream table and the retry with the leading slash stripped misses as
well, the gate answers 404, regardless of any cookie the request carries
and of every oracle outcome. -/
theorem C7_unresolved_path_404 (s : OAuthServer) (now : Int) (req : Request)
    (c : CollabOracles)
    (h1 : req.path ≠ signInPath) (h2 : req.path ≠ oauthStartPath)
    (h3 : req.path ≠ oauthCallbackPath)
    (h4 : hasPre req.path staticDir = false)
    (h5 : tableGet s.upstreamsConfig
            (muxMatch (s.upstreamsConfig.map Prod.fst) req.path) = none)
    (h6 : tableGet s.upstreamsConfig
            (trimSlash (muxMatch (s.upstreamsConfig.map Prod.fst) req.path))
          = none) :
    ServeHTTP s now req c = [Effect.notFound] := by
  simp [ServeHTTP, lookupUpstream, h1, h2, h3, h4, h5, h6]

/-- C7 witness: an unmapped path is answered 404 even with a cookie. -/
theorem C7_unresolved_path_404_witness :
    ServeHTTP srvApp 0 reqNomatch okOracles = [Effect.notFound] :=
  C7_unresolved_path_404 srvApp 0 reqNomatch okOracles
    (by decide) (by decide) (by decide) (by decide) (by decide) (by decide)

/-- C8: a request for the sign-in path first destroys any session by
emitting the already-expired empty-valued cookie and then renders the
sign-in page with the original request URI as the redirect target. -/
theorem C8_sign_in_clears_and_renders (s : OAuthServer) (now : Int)
    (req : Request) (c : CollabOracles) (h : req.path = signInPath) :
    ServeHTTP s now req c =
      [Effect.setCookie (ClearCookie s now req),
       Effect.render "sign_in" "Sign in" req.requestURI] ∧
    (ClearCookie s now req).value = "" ∧ (ClearCookie s now req).expires < now := by
  refine ⟨?_, rfl, ?_⟩
  · simp [ServeHTTP, handleSignIn, h]
  · show now - 3600 < now
    omega

/-- C8 witness at a concrete sign-in request. -/
theorem C8_sign_in_clears_and_renders_witness :
    ServeHTTP srvTest 0 reqSignIn okOracles =
      [Effect.setCookie (ClearCookie srvTest 0 reqSignIn),
       Effect.render "sign_in" "Sign in" "/oauth2/sign_in?rd=/x"] ∧
    (ClearCookie srvTest 0 reqSignIn).value = "" ∧
    (ClearCookie srvTest 0 reqSignIn).expires < 0 :=
  C8_sign_in_clears_and_renders srvTest 0 reqSignIn okOracles rfl

/-- C9 counterexample: the claim says the cookie Domain is the request host
with any port stripped; for a bracketed IPv6 host the code's split at the
first colon yields the opening bracket alone, not the host without its
port. -/
theorem C9_domain_counterexample :
    (SetCookie srvTest 0 reqV6 "v").domain = "[" ∧
    specStripPort "[::1]:8080" = "[::1]" ∧
    (SetCookie srvTest 0 reqV6 "v").domain ≠ specStripPort reqV6.host := by
  refine ⟨rfl, rfl, ?_⟩
  decide

/-- C9 amended: every session cookie issued by a constructed server carries
the fixed name, Path set to the root, HttpOnly, Expires equal to issuance
time plus seven days, and Domain equal to the portion of the request host
before the first colon — which strips the port for ordinary host-colon-port
values but truncates bracketed IPv6 hosts — except that when that portion
ends with the non-empty configured cookie-domain suffix, Domain is that
configured suffix. -/
theorem C9_cookie_attributes (cfg : Configuration)
    (v : Auth → UpstreamConfiguration → Bool) (s : OAuthServer)
    (hs : NewOauthServer cfg v = some s) (now : Int) (req : Request)
    (val : String) :
    (SetCookie s now req val).name = "_slackauthproxy" ∧
    (SetCookie s now req val).path = "/" ∧
    (SetCookie s now req val).httpOnly = true ∧
    (SetCookie s now req val).expires = now + 7 * 24 * 3600 ∧
    (SetCookie s now req val).domain =
      (let seg := String.mk ((splitChar ':' req.host.toList).headD [])
       if s.config.cookieDomain ≠ "" ∧ hasSuf seg s.config.cookieDomain then
         s.config.cookieDomain
       else seg) := by
  have hk : s.cookieKey = "_slackauthproxy" := by
    unfold NewOauthServer at hs
    cases hd1 : decodeBase64 cfg.cookieHashKey with
    | none => rw [hd1] at hs; exact absurd hs (by simp)
    | some k1 =>
      cases hd2 : decodeBase64 cfg.cookieBlockKey with
      | none => rw [hd1, hd2] at hs; exact absurd hs (by simp)
      | some k2 =>
        rw [hd1, hd2] at hs
        injection hs with h
        subst h
        rfl
  refine ⟨hk, rfl, rfl, ?_, rfl⟩
  show now + 168 * 3600 = now + 7 * 24 * 3600
  norm_num

/-- C9 amended witness at a constructed server and an ordinary host. -/
theorem C9_cookie_attributes_witness :
    (SetCookie srvTest 0 reqFoo "v").name = "_slackauthproxy" ∧
    (SetCookie srvTest 0 reqFoo "v").path = "/" ∧
    (SetCookie srvTest 0 reqFoo "v").httpOnly = true ∧
    (SetCookie srvTest 0 reqFoo "v").expires = 0 + 7 * 24 * 3600 ∧
    (SetCookie srvTest 0 reqFoo "v").domain = "proxy.example.com" :=
  C9_cookie_attributes cfgTest NewValidator srvTest rfl 0 reqFoo "v"

end SlackAuthProxy
